import Mathlib

/-!
Verification of the MediCare backend (src/main.py) against its specification.

The embedding models the data stores (a TTL key-value store for OTP records,
a document store for orders, carts, users and products), the JWT-based session
credentials, the phone normalizer, and each HTTP handler of src/main.py as a
pure function from an explicit state to a response together with the new state.
External libraries (the HMAC keyed hash, the phone-number metadata, the JWT
signature) are modelled by parameters of a `Config` record: the keyed hash is
an arbitrary function of the code, phone validity is an arbitrary predicate on
the parsed digit string, and a signed token records the key it was signed with.
-/

deriving instance DecidableEq for Except

namespace MediCare

/-- A JWT as seen by the PyJWT library: either a structurally well-formed
signed token carrying its claims and the key that signed it, or an opaque
malformed string (any structure/signature failure of a real token). -/
inductive Token where
  | signed (sub : String) (iat nbf exp : Nat) (jti : String) (typ : String) (key : String)
  | malformed (raw : String)
  deriving DecidableEq, Repr

/-- The two failure classes of `jwt.decode` distinguished by
`get_current_user` in src/main.py (lines 144-147). -/
inductive JwtError where
  | expired
  | invalid
  deriving DecidableEq, Repr

/-- An HTTPException: status code and detail string. -/
structure HErr where
  status : Nat
  detail : String
  deriving DecidableEq, Repr

/-- One entry of the TTL key-value store (Redis). `expiresAt` is the absolute
expiry time produced by `set(..., ex=ttl)`. -/
structure RedisEntry where
  key : String
  value : String
  expiresAt : Nat
  deriving DecidableEq, Repr

/-- A cart line: product id (stored as a string, main.py line 255) and
quantity. -/
structure CartItem where
  id : String
  qty : Int
  deriving DecidableEq, Repr

/-- A cart document: owner phone and its line items. -/
structure Cart where
  phone : String
  items : List CartItem
  deriving DecidableEq, Repr

/-- A user-details document (phone is the key; the `not phone` guard of
main.py line 423 is modelled by the empty string). -/
structure UserRec where
  name : String
  email : String
  address : String
  phone : String
  deriving DecidableEq, Repr

/-- An order line item as built by place_order (main.py lines 329-334). -/
structure OrderItem where
  id : String
  name : String
  qty : Int
  price : Int
  deriving DecidableEq, Repr

/-- An order document. `user` is optional to model the
`order.get("user")` guard of main.py line 418. -/
structure Order where
  user : Option UserRec
  items : List OrderItem
  total : Int
  status : String
  createdAt : Nat
  deriving DecidableEq, Repr

/-- A product document (main.py products_collection). -/
structure Product where
  id : String
  name : String
  price : Int
  quantity : Int
  deriving DecidableEq, Repr

/-- Server configuration: the keyed HMAC hash (hmac_hash with the process-wide
HMAC_SECRET), the phone-validity metadata of the phonenumbers library, the JWT
SECRET_KEY, ACCESS_TOKEN_EXPIRE_SECONDS and OTP_TTL_SECONDS. -/
structure Config where
  hash : String → String
  isValid : List Char → Bool
  secretKey : String
  expireSeconds : Nat
  otpTtl : Nat

/-- The full mutable state: the Redis store and the four Mongo collections.
Collections are association lists; `find_one`/`update_one` act on the first
matching document, as Mongo does. -/
structure St where
  redis : List RedisEntry
  orders : List (String × Order)
  products : List Product
  carts : List Cart
  users : List UserRec
  deriving DecidableEq, Repr

/-! ### Key-value store primitives -/

/-- `redis.get k` at time `now`: an entry is visible only before it expires. -/
def redisGet (rs : List RedisEntry) (now : Nat) (k : String) : Option String :=
  match rs.find? (fun e => e.key == k) with
  | some e => if now < e.expiresAt then some e.value else none
  | none => none

/-- `redis.set k v ex=ttl`: unconditionally replaces any record under `k`. -/
def redisSet (rs : List RedisEntry) (now : Nat) (k v : String) (ttl : Nat) :
    List RedisEntry :=
  ⟨k, v, now + ttl⟩ :: rs.filter (fun e => e.key != k)

/-- `redis.delete k`. -/
def redisDelete (rs : List RedisEntry) (k : String) : List RedisEntry :=
  rs.filter (fun e => e.key != k)

/-- otp_key (main.py line 133). -/
def otp_key (phone : String) : String := "otp:" ++ phone

/-- delivery_otp_key (main.py line 149). -/
def delivery_otp_key (orderId : String) : String := "delivery_otp:" ++ orderId

/-! ### Phone normalizer (main.py lines 89-96, over the phonenumbers library)

`phonenumbers.parse(s, None)` strips separator punctuation, requires an
international `+`-prefixed number, and yields its digit string (country code
followed by national number); `is_valid_number` consults region metadata, a
predicate on that parsed number; `format_number(.., E164)` prints `+` followed
by the digits. The metadata predicate is the `Config.isValid` parameter. -/

/-- Punctuation that phone parsing ignores. -/
def isSeparator (c : Char) : Bool :=
  c == ' ' || c == '-' || c == '.' || c == '(' || c == ')'

/-- Parse a raw phone string: drop separators, require a leading `+` and a
nonempty digit string. Returns the digits (country code ++ national number). -/
def parsePhone (s : String) : Option (List Char) :=
  match s.data.filter (fun c => !(isSeparator c)) with
  | '+' :: rest =>
    if rest ≠ [] ∧ rest.all Char.isDigit then some rest else none
  | _ => none

/-- normalize_phone_e164 (main.py lines 89-96): parse, check validity, format
to E.164; any failure raises ValueError("Invalid phone number format"). -/
def normalize_phone_e164 (isValid : List Char → Bool) (phone : String) :
    Except String String :=
  match parsePhone phone with
  | some digits =>
    if isValid digits then .ok (String.mk ('+' :: digits))
    else .error "Invalid phone number format"
  | none => .error "Invalid phone number format"

/-! ### Credential issuer / session authenticator -/

/-- create_access_token (main.py lines 105-117). -/
def create_access_token (cfg : Config) (phone : String) (now : Nat) (jti : String) :
    Token :=
  .signed phone now now (now + cfg.expireSeconds) jti "access" cfg.secretKey

/-- `jwt.decode(token, key, ...)` as used at main.py line 142: signature and
structure failures give a generic PyJWTError (`invalid`); a not-yet-valid
`nbf` is also a generic PyJWTError; an elapsed `exp` gives
ExpiredSignatureError (`expired`); otherwise the subject claim is returned. -/
def jwt_decode (key : String) (now : Nat) (t : Token) : Except JwtError String :=
  match t with
  | .malformed _ => .error .invalid
  | .signed sub _ nbf exp _ _ k =>
    if k ≠ key then .error .invalid
    else if now < nbf then .error .invalid
    else if exp ≤ now then .error .expired
    else .ok sub

/-- get_current_user (main.py lines 139-147) together with the HTTPBearer
dependency (line 137): a request with no bearer credential is rejected by
HTTPBearer with 403 before the handler runs; an expired token gives
401 "Token expired"; any other decode failure gives 401 "Invalid token". -/
def get_current_user (key : String) (now : Nat) (auth : Option Token) :
    Except HErr String :=
  match auth with
  | none => .error ⟨403, "Not authenticated"⟩
  | some t =>
    match jwt_decode key now t with
    | .ok sub => .ok sub
    | .error .expired => .error ⟨401, "Token expired"⟩
    | .error .invalid => .error ⟨401, "Invalid token"⟩

/-! ### Document store primitives -/

/-- Characters accepted by `bson.ObjectId`: lowercase or uppercase hex. -/
def isHexChar (c : Char) : Bool :=
  c.isDigit || (('a' ≤ c && c ≤ 'f') || ('A' ≤ c && c ≤ 'F'))

/-- `ObjectId(s)` succeeds exactly on 24-character hex strings. -/
def isValidObjectId (s : String) : Bool :=
  s.length == 24 && s.data.all isHexChar

/-- `orders_col().find_one(id)`: first document with the given id. -/
def findOrder (os : List (String × Order)) (oid : String) : Option Order :=
  (os.find? (fun e => e.1 == oid)).map (fun e => e.2)

/-- `orders_col().update_one(id, set status)`: rewrite the status of the
first matching document. -/
def setOrderStatus (os : List (String × Order)) (oid newStatus : String) :
    List (String × Order) :=
  match os with
  | [] => []
  | e :: rest =>
    if e.1 == oid then (e.1, { e.2 with status := newStatus }) :: rest
    else e :: setOrderStatus rest oid newStatus

/-- `carts_col().find_one(phone)`. -/
def findCart (cs : List Cart) (phone : String) : Option Cart :=
  cs.find? (fun c => c.phone == phone)

/-- `carts_col().update_one(phone, set, upsert=True)`: replace the first
matching document or append a new one. -/
def upsertCart (cs : List Cart) (phone : String) (items : List CartItem) :
    List Cart :=
  match cs with
  | [] => [⟨phone, items⟩]
  | c :: rest =>
    if c.phone == phone then ⟨phone, items⟩ :: rest
    else c :: upsertCart rest phone items

/-- `carts_col().delete_one(phone)`: remove the first matching document. -/
def deleteCart (cs : List Cart) (phone : String) : List Cart :=
  match cs with
  | [] => []
  | c :: rest => if c.phone == phone then rest else c :: deleteCart rest phone

/-- `users_col().find_one(phone)`. -/
def findUser (us : List UserRec) (phone : String) : Option UserRec :=
  us.find? (fun u => u.phone == phone)

/-- `users_col().update_one(phone, set, upsert=True)`. -/
def upsertUser (us : List UserRec) (phone : String) (u : UserRec) :
    List UserRec :=
  match us with
  | [] => [u]
  | v :: rest => if v.phone == phone then u :: rest else v :: upsertUser rest phone u

/-- `products_collection.find_one(id)`. -/
def findProduct (ps : List Product) (pid : String) : Option Product :=
  ps.find? (fun p => p.id == pid)

/-- `products_collection.update_one(id, inc quantity by -q)`: decrement the
quantity of the first matching document (main.py lines 466-469). -/
def decProduct (ps : List Product) (pid : String) (q : Int) : List Product :=
  match ps with
  | [] => []
  | p :: rest =>
    if p.id == pid then { p with quantity := p.quantity - q } :: rest
    else p :: decProduct rest pid q

/-- The inventory-decrement loop of verify_order_delivery
(main.py lines 465-469). -/
def applyDecrements (ps : List Product) (items : List OrderItem) : List Product :=
  match items with
  | [] => ps
  | it :: rest => applyDecrements (decProduct ps it.id it.qty) rest

/-- The cart merge loop of add_to_cart (main.py lines 250-255): bump the
quantity of the first line with the given product id, else append a new line. -/
def bumpItems (items : List CartItem) (pid : String) (q : Int) : List CartItem :=
  match items with
  | [] => [⟨pid, q⟩]
  | it :: rest =>
    if it.id == pid then { it with qty := it.qty + q } :: rest
    else it :: bumpItems rest pid q

/-! ### HTTP handlers

Each handler is a function of the config, the current state, the request time,
the request's optional bearer credential (routes that do not declare the
`Depends(get_current_user)` dependency receive it but never read it), and the
request parameters. Nondeterministic inputs of the Python handler — the
freshly generated OTP digits, the fresh JWT jti, the id Mongo assigns to an
inserted order — are extra parameters. Every handler returns the response
(`Except HErr α`, an HTTPException or the success payload) and the new state;
in src/main.py every store write happens after the last `raise`, so a failing
request leaves the state unchanged. -/

/-- send_otp_route (main.py lines 177-194): normalize the phone, store the
hashed OTP under `otp:<phone>` with TTL, queue background delivery. -/
def send_otp_route (cfg : Config) (st : St) (now : Nat) (phoneRaw otp : String) :
    Except HErr Nat × St :=
  match normalize_phone_e164 cfg.isValid phoneRaw with
  | .error e => (.error ⟨400, e⟩, st)
  | .ok phone =>
    (.ok cfg.otpTtl,
     { st with redis := redisSet st.redis now (otp_key phone) (cfg.hash otp) cfg.otpTtl })

/-- verify_otp_route (main.py lines 197-221): normalize, fetch stored hash,
constant-time compare, delete the record, mint an access token. -/
def verify_otp_route (cfg : Config) (st : St) (now : Nat)
    (phoneRaw otp jti : String) : Except HErr Token × St :=
  match normalize_phone_e164 cfg.isValid phoneRaw with
  | .error _ => (.error ⟨400, "Invalid phone number"⟩, st)
  | .ok phone =>
    match redisGet st.redis now (otp_key phone) with
    | none => (.error ⟨400, "OTP not found or expired"⟩, st)
    | some stored =>
      if cfg.hash otp ≠ stored then (.error ⟨400, "Invalid OTP"⟩, st)
      else
        (.ok (create_access_token cfg phone now jti),
         { st with redis := redisDelete st.redis (otp_key phone) })

/-- add_to_cart (main.py lines 236-259): authenticated; product must exist,
quantity must be positive; merge into the user's cart and upsert it. -/
def add_to_cart (cfg : Config) (st : St) (now : Nat) (auth : Option Token)
    (productId : Int) (quantity : Int) : Except HErr (List CartItem) × St :=
  match get_current_user cfg.secretKey now auth with
  | .error e => (.error e, st)
  | .ok phone =>
    match findProduct st.products (toString productId) with
    | none => (.error ⟨404, "Product not found"⟩, st)
    | some _ =>
      if quantity ≤ 0 then (.error ⟨400, "Quantity must be positive"⟩, st)
      else
        let items :=
          match findCart st.carts phone with
          | none => ([] : List CartItem)
          | some c => c.items
        let items' := bumpItems items (toString productId) quantity
        (.ok items', { st with carts := upsertCart st.carts phone items' })

/-- get_cart (main.py lines 262-283): authenticated read of the cart joined
with product details; returns `(product, qty)` pairs for lines whose product
still exists. -/
def get_cart (cfg : Config) (st : St) (now : Nat) (auth : Option Token) :
    Except HErr (List (Product × Int)) :=
  match get_current_user cfg.secretKey now auth with
  | .error e => .error e
  | .ok phone =>
    match findCart st.carts phone with
    | none => .ok []
    | some c =>
      .ok (c.items.filterMap fun it =>
        (findProduct st.products it.id).map (fun p => (p, it.qty)))

/-- save_user_details (main.py lines 287-297): authenticated upsert of the
user-details document keyed by the caller's phone. -/
def save_user_details (cfg : Config) (st : St) (now : Nat) (auth : Option Token)
    (name email address : String) : Except HErr UserRec × St :=
  match get_current_user cfg.secretKey now auth with
  | .error e => (.error e, st)
  | .ok phone =>
    let u : UserRec := ⟨name, email, address, phone⟩
    (.ok u, { st with users := upsertUser st.users phone u })

/-- get_user_details (main.py lines 300-304): authenticated read. -/
def get_user_details (cfg : Config) (st : St) (now : Nat) (auth : Option Token) :
    Except HErr (Option UserRec) :=
  match get_current_user cfg.secretKey now auth with
  | .error e => .error e
  | .ok phone => .ok (findUser st.users phone)

/-- place_order (main.py lines 308-359): authenticated; requires a nonempty
cart and saved user details; builds line items from still-existing products,
inserts the order with status "Order Placed", clears the cart. `newOrderId`
is the ObjectId Mongo assigns to the inserted document. -/
def place_order (cfg : Config) (st : St) (now : Nat) (auth : Option Token)
    (newOrderId : String) : Except HErr String × St :=
  match get_current_user cfg.secretKey now auth with
  | .error e => (.error e, st)
  | .ok phone =>
    match findCart st.carts phone with
    | none => (.error ⟨400, "Cart is empty"⟩, st)
    | some cart =>
      if cart.items.isEmpty then (.error ⟨400, "Cart is empty"⟩, st)
      else
        match findUser st.users phone with
        | none => (.error ⟨400, "User details missing"⟩, st)
        | some user =>
          let items : List OrderItem := cart.items.filterMap fun it =>
            (findProduct st.products it.id).map fun p =>
              ⟨p.id, p.name, it.qty, p.price⟩
          let total : Int := items.foldl (fun acc it => acc + it.price * it.qty) 0
          let order : Order := ⟨some user, items, total, "Order Placed", now⟩
          (.ok newOrderId,
           { st with orders := st.orders ++ [(newOrderId, order)],
                     carts := deleteCart st.carts phone })

/-- get_orders (main.py lines 361-364): authenticated read of the caller's
orders. -/
def get_orders (cfg : Config) (st : St) (now : Nat) (auth : Option Token) :
    Except HErr (List Order) :=
  match get_current_user cfg.secretKey now auth with
  | .error e => .error e
  | .ok phone =>
    .ok ((st.orders.filter fun e =>
      match e.2.user with
      | some u => u.phone == phone
      | none => false).map (fun e => e.2))

/-- get_all_orders, route /admin/orders (main.py lines 367-383): declares no
auth dependency; returns a summary of every order. -/
def get_all_orders (st : St) (_auth : Option Token) :
    Except HErr (List (String × String)) :=
  .ok (st.orders.map fun e => (e.1, e.2.status))

/-- update_order_status (main.py lines 386-403): declares no auth dependency;
validates the status against the whitelist, the order id format, the order's
existence, then writes the status. -/
def update_order_status (st : St) (_auth : Option Token)
    (orderId status : String) : Except HErr String × St :=
  if !(status == "Order Placed" || status == "Dispatched" ||
       status == "Delivered" || status == "Cancelled") then
    (.error ⟨400, "Invalid order status"⟩, st)
  else if !isValidObjectId orderId then
    (.error ⟨400, "Invalid order ID format"⟩, st)
  else
    match findOrder st.orders orderId with
    | none => (.error ⟨404, "Order not found"⟩, st)
    | some _ =>
      (.ok status, { st with orders := setOrderStatus st.orders orderId status })

/-- send_delivery_otp (main.py lines 406-436): declares no auth dependency;
validates the id, the order, its user and phone, then stores the hashed OTP
under `delivery_otp:<order_id>` and queues background delivery. -/
def send_delivery_otp (cfg : Config) (st : St) (now : Nat) (_auth : Option Token)
    (orderId otp : String) : Except HErr String × St :=
  if !isValidObjectId orderId then
    (.error ⟨400, "Invalid order ID format"⟩, st)
  else
    match findOrder st.orders orderId with
    | none => (.error ⟨404, "Order not found"⟩, st)
    | some order =>
      match order.user with
      | none => (.error ⟨400, "User details missing for this order"⟩, st)
      | some user =>
        if user.phone == "" then
          (.error ⟨400, "Phone number not linked with user"⟩, st)
        else
          (.ok user.phone,
           { st with redis :=
               redisSet st.redis now (delivery_otp_key orderId) (cfg.hash otp) cfg.otpTtl })

/-- verify_order_delivery (main.py lines 440-475): declares no auth
dependency; fetches the stored hash, constant-time compares, validates the
order id and existence, then sets the status to "Delivered", deletes the OTP
record and decrements the stock of every line item. -/
def verify_order_delivery (cfg : Config) (st : St) (now : Nat)
    (_auth : Option Token) (orderId otp : String) :
    Except HErr (String × String) × St :=
  match redisGet st.redis now (delivery_otp_key orderId) with
  | none => (.error ⟨400, "OTP not found or expired"⟩, st)
  | some stored =>
    if cfg.hash otp ≠ stored then (.error ⟨400, "Invalid OTP"⟩, st)
    else if !isValidObjectId orderId then
      (.error ⟨400, "Invalid order ID format"⟩, st)
    else
      match findOrder st.orders orderId with
      | none => (.error ⟨404, "Order not found"⟩, st)
      | some order =>
        (.ok (orderId, "Delivered"),
         { st with
             orders := setOrderStatus st.orders orderId "Delivered",
             redis := redisDelete st.redis (delivery_otp_key orderId),
             products := applyDecrements st.products order.items })

/-! ### The operation alphabet and step function

One step is one state-mutating HTTP request. Read-only routes (get_cart,
get_user_details, get_orders, get_all_orders, get_products) do not change the
state and are omitted from the alphabet. -/

/-- One state-mutating request. -/
inductive Op where
  | sendOtp (now : Nat) (phoneRaw otp : String)
  | verifyOtp (now : Nat) (phoneRaw otp jti : String)
  | addToCart (now : Nat) (auth : Option Token) (productId quantity : Int)
  | saveUserDetails (now : Nat) (auth : Option Token) (name email address : String)
  | placeOrder (now : Nat) (auth : Option Token) (newOrderId : String)
  | updateOrderStatus (auth : Option Token) (orderId status : String)
  | sendDeliveryOtp (now : Nat) (auth : Option Token) (orderId otp : String)
  | verifyDelivery (now : Nat) (auth : Option Token) (orderId otp : String)

/-- The state reached after serving one request. -/
def step (cfg : Config) (st : St) : Op → St
  | .sendOtp now phoneRaw otp => (send_otp_route cfg st now phoneRaw otp).2
  | .verifyOtp now phoneRaw otp jti => (verify_otp_route cfg st now phoneRaw otp jti).2
  | .addToCart now auth pid q => (add_to_cart cfg st now auth pid q).2
  | .saveUserDetails now auth n e a => (save_user_details cfg st now auth n e a).2
  | .placeOrder now auth oid => (place_order cfg st now auth oid).2
  | .updateOrderStatus auth oid s => (update_order_status st auth oid s).2
  | .sendDeliveryOtp now auth oid otp => (send_delivery_otp cfg st now auth oid otp).2
  | .verifyDelivery now auth oid otp => (verify_order_delivery cfg st now auth oid otp).2

/-! ### Derived observations used in specifications -/

/-- The quantity of the first product document with the given id, if any. -/
def lookupQty (ps : List Product) (pid : String) : Option Int :=
  (findProduct ps pid).map (fun p => p.quantity)

/-- Total quantity ordered for a product id across an order's line items. -/
def orderedQty : List OrderItem → String → Int
  | [], _ => 0
  | it :: rest, pid => (if it.id = pid then it.qty else 0) + orderedQty rest pid

/-- The product ids of a cart's lines, in order. -/
def itemIds (items : List CartItem) : List String :=
  items.map (fun it => it.id)

/-- The quantity on the first cart line with the given product id, if any. -/
def findItemQty (items : List CartItem) (pid : String) : Option Int :=
  (items.find? (fun it => it.id == pid)).map (fun it => it.qty)

/-- Every cart document holds at most one line per product id. -/
def cartsWF (cs : List Cart) : Prop :=
  ∀ c ∈ cs, (itemIds c.items).Nodup

/-! ### Concrete instances used by counterexamples and witnesses -/

/-- A concrete configuration: an injective stand-in keyed hash, metadata that
accepts every parsed number, a JWT secret, the default expiry and TTL. -/
def cfg0 : Config :=
  { hash := fun s => String.mk ('h' :: s.data),
    isValid := fun _ => true,
    secretKey := "k",
    expireSeconds := 3600,
    otpTtl := 300 }

/-- The same configuration with a 1-second token expiry
(ACCESS_TOKEN_EXPIRE_SECONDS = 1). -/
def cfg1 : Config := { cfg0 with expireSeconds := 1 }

/-- A concrete well-formed ObjectId. -/
def oid0 : String := "aaaaaaaaaaaaaaaaaaaaaaaa"

/-- A concrete dispatched order with one line item: product p1, quantity 2. -/
def ord0 : Order :=
  { user := some ⟨"n", "e", "a", "+15551234567"⟩,
    items := [⟨"p1", "Aspirin", 2, 5⟩],
    total := 10,
    status := "Dispatched",
    createdAt := 0 }

/-- A state holding ord0, product p1 with stock 10, and a live delivery OTP
record for ord0 whose plaintext is "123456". -/
def st0 : St :=
  { redis := [⟨delivery_otp_key oid0, cfg0.hash "123456", 300⟩],
    orders := [(oid0, ord0)],
    products := [⟨"p1", "Aspirin", 5, 10⟩],
    carts := [],
    users := [] }

/-- The same state with an empty key-value store: no OTP was ever issued. -/
def stU : St := { st0 with redis := [] }

/-- A state holding a live login OTP record for phone +15551234567 whose
plaintext is "111111". -/
def stOtp : St :=
  { redis := [⟨otp_key "+15551234567", cfg0.hash "111111", 300⟩],
    orders := [],
    products := [],
    carts := [],
    users := [] }

/-- The empty state. -/
def stEmpty : St := ⟨[], [], [], [], []⟩

/-- A bearer token for phone +15551234567 issued at time 0 under cfg0. -/
def tok0 : Token := create_access_token cfg0 "+15551234567" 0 "j0"

/-- A state with one product (id "5", stock 7) and a cart for +15551234567
already holding 2 units of it. -/
def stC : St :=
  { redis := [],
    orders := [],
    products := [⟨"5", "X", 3, 7⟩],
    carts := [⟨"+15551234567", [⟨"5", 2⟩]⟩],
    users := [] }

/-! ### Key-value store lemmas -/

theorem find?_filter_ne (rs : List RedisEntry) (k : String) :
    (rs.filter (fun e => e.key != k)).find? (fun e => e.key == k) = none := by
  induction rs with
  | nil => rfl
  | cons e rest ih =>
    simp only [List.filter_cons]
    split
    · rename_i h
      rw [List.find?_cons_of_neg]
      · exact ih
      · simpa using h
    · exact ih

theorem redisGet_redisSet_self (rs : List RedisEntry) (now now₂ : Nat)
    (k v : String) (ttl : Nat) :
    redisGet (redisSet rs now k v ttl) now₂ k =
      if now₂ < now + ttl then some v else none := by
  simp [redisGet, redisSet, List.find?_cons]

theorem redisGet_redisDelete_self (rs : List RedisEntry) (k : String) (now : Nat) :
    redisGet (redisDelete rs k) now k = none := by
  unfold redisGet redisDelete
  rw [find?_filter_ne]

/-- C4: issuing a login OTP and immediately verifying it with the correct
plaintext succeeds, returns a bearer access token, and deletes the stored
record; a second verify with the same code then fails with 400
"OTP not found or expired" and leaves the state unchanged. -/
theorem C4_otp_single_use (cfg : Config) (st st₁ : St) (now now₂ now₃ : Nat)
    (phoneRaw otp jti jti₂ phone : String) (r : Except HErr Token × St)
    (hn : normalize_phone_e164 cfg.isValid phoneRaw = .ok phone)
    (hw : now₂ < now + cfg.otpTtl)
    (hst₁ : st₁ = (send_otp_route cfg st now phoneRaw otp).2)
    (hr : r = verify_otp_route cfg st₁ now₂ phoneRaw otp jti) :
    r.1 = .ok (create_access_token cfg phone now₂ jti) ∧
    redisGet r.2.redis now₃ (otp_key phone) = none ∧
    verify_otp_route cfg r.2 now₃ phoneRaw otp jti₂ =
      (.error ⟨400, "OTP not found or expired"⟩, r.2) := by
  have hst : st₁ =
      { st with redis := redisSet st.redis now (otp_key phone) (cfg.hash otp) cfg.otpTtl } := by
    rw [hst₁]; simp only [send_otp_route, hn]
  have hget : redisGet st₁.redis now₂ (otp_key phone) = some (cfg.hash otp) := by
    rw [hst]
    rw [redisGet_redisSet_self]
    simp [hw]
  have hr2 : r = (.ok (create_access_token cfg phone now₂ jti),
      { st₁ with redis := redisDelete st₁.redis (otp_key phone) }) := by
    rw [hr]
    simp only [verify_otp_route, hn, hget]
    simp
  refine ⟨by rw [hr2], ?_, ?_⟩
  · rw [hr2]
    exact redisGet_redisDelete_self _ _ _
  · have hnone : redisGet r.2.redis now₃ (otp_key phone) = none := by
      rw [hr2]
      exact redisGet_redisDelete_self _ _ _
    simp only [verify_otp_route, hn, hnone]

/-- Witness for C4 at phone "+15551234567", OTP "123456", times 0/1/2. -/
theorem C4_otp_single_use_witness :
    (verify_otp_route cfg0 (send_otp_route cfg0 stEmpty 0 "+15551234567" "123456").2
        1 "+15551234567" "123456" "j1").1 =
      .ok (create_access_token cfg0 "+15551234567" 1 "j1") ∧
    redisGet ((verify_otp_route cfg0 (send_otp_route cfg0 stEmpty 0 "+15551234567" "123456").2
        1 "+15551234567" "123456" "j1").2).redis 2 (otp_key "+15551234567") = none ∧
    verify_otp_route cfg0
        ((verify_otp_route cfg0 (send_otp_route cfg0 stEmpty 0 "+15551234567" "123456").2
          1 "+15551234567" "123456" "j1").2) 2 "+15551234567" "123456" "j2" =
      (.error ⟨400, "OTP not found or expired"⟩,
       (verify_otp_route cfg0 (send_otp_route cfg0 stEmpty 0 "+15551234567" "123456").2
          1 "+15551234567" "123456" "j1").2) :=
  C4_otp_single_use cfg0 stEmpty _ 0 1 2 "+15551234567" "123456" "j1" "j2"
    "+15551234567" _ (by decide) (by decide) rfl rfl

/-- C6: verifying a login OTP with a code whose keyed hash differs from the
stored hash fails with 400 "Invalid OTP" and leaves the state unchanged; a
code with the matching hash still verifies afterwards, as long as the record
has not expired. -/
theorem C6_wrong_code_preserves_record (cfg : Config) (st : St) (now : Nat)
    (phoneRaw wrong jti phone s : String)
    (hn : normalize_phone_e164 cfg.isValid phoneRaw = .ok phone)
    (hget : redisGet st.redis now (otp_key phone) = some s)
    (hne : cfg.hash wrong ≠ s) :
    verify_otp_route cfg st now phoneRaw wrong jti = (.error ⟨400, "Invalid OTP"⟩, st) ∧
    (∀ right now₂ jti₂, cfg.hash right = s →
      redisGet st.redis now₂ (otp_key phone) = some s →
      (verify_otp_route cfg st now₂ phoneRaw right jti₂).1 =
        .ok (create_access_token cfg phone now₂ jti₂)) := by
  constructor
  · simp only [verify_otp_route, hn, hget]
    simp [hne]
  · intro right now₂ jti₂ heq hget₂
    simp only [verify_otp_route, hn, hget₂]
    simp [heq]

/-- Witness for C6: wrong code "999999" against stored hash of "111111". -/
theorem C6_wrong_code_preserves_record_witness :
    verify_otp_route cfg0 stOtp 0 "+15551234567" "999999" "j" =
      (.error ⟨400, "Invalid OTP"⟩, stOtp) ∧
    (verify_otp_route cfg0 stOtp 1 "+15551234567" "111111" "j2").1 =
      .ok (create_access_token cfg0 "+15551234567" 1 "j2") := by
  have h := C6_wrong_code_preserves_record cfg0 stOtp 0 "+15551234567" "999999" "j"
    "+15551234567" (cfg0.hash "111111") (by decide) (by decide) (by decide)
  exact ⟨h.1, h.2 "111111" 1 "j2" rfl (by decide)⟩

/-- C9: in verify_order_delivery, a matching candidate hash with a malformed
order id fails with 400, and with a missing order fails with 404, both leaving
the state (in particular the OTP record) unchanged; once an order with that id
exists, the same code still verifies while the record is live. -/
theorem C9_delivery_otp_survives_order_errors (cfg : Config) (st : St)
    (now : Nat) (auth : Option Token) (oid otp s : String)
    (hget : redisGet st.redis now (delivery_otp_key oid) = some s)
    (heq : cfg.hash otp = s) :
    (isValidObjectId oid = false →
      verify_order_delivery cfg st now auth oid otp =
        (.error ⟨400, "Invalid order ID format"⟩, st)) ∧
    (isValidObjectId oid = true → findOrder st.orders oid = none →
      verify_order_delivery cfg st now auth oid otp =
        (.error ⟨404, "Order not found"⟩, st)) ∧
    (∀ o now₂ auth₂, isValidObjectId oid = true →
      redisGet st.redis now₂ (delivery_otp_key oid) = some s →
      (verify_order_delivery cfg { st with orders := (oid, o) :: st.orders }
          now₂ auth₂ oid otp).1 = .ok (oid, "Delivered")) := by
  refine ⟨?_, ?_, ?_⟩
  · intro hbad
    simp only [verify_order_delivery, hget]
    simp [heq, hbad]
  · intro hok hfind
    simp only [verify_order_delivery, hget, hfind]
    simp [heq, hok]
  · intro o now₂ auth₂ hok hget₂
    have hfind : findOrder ((oid, o) :: st.orders) oid = some o := by
      simp [findOrder, List.find?_cons]
    simp only [verify_order_delivery, hget₂, hfind]
    simp [heq, hok]

/-- Witness for C9: a malformed id "zz", a valid but absent id, and the order
appearing later. -/
theorem C9_delivery_otp_survives_order_errors_witness :
    (verify_order_delivery cfg0
        { stEmpty with redis := [⟨delivery_otp_key "zz", cfg0.hash "123456", 300⟩] }
        0 none "zz" "123456" =
      (.error ⟨400, "Invalid order ID format"⟩,
       { stEmpty with redis := [⟨delivery_otp_key "zz", cfg0.hash "123456", 300⟩] })) ∧
    (verify_order_delivery cfg0 { st0 with orders := [] } 0 none oid0 "123456" =
      (.error ⟨404, "Order not found"⟩, { st0 with orders := [] })) ∧
    (verify_order_delivery cfg0
        { { st0 with orders := [] } with orders := (oid0, ord0) :: [] }
        1 none oid0 "123456").1 = .ok (oid0, "Delivered") := by
  have h1 := C9_delivery_otp_survives_order_errors cfg0
    { stEmpty with redis := [⟨delivery_otp_key "zz", cfg0.hash "123456", 300⟩] }
    0 none "zz" "123456" (cfg0.hash "123456") (by decide) rfl
  have h2 := C9_delivery_otp_survives_order_errors cfg0 { st0 with orders := [] }
    0 none oid0 "123456" (cfg0.hash "123456") (by decide) rfl
  exact ⟨h1.1 (by decide), h2.2.1 (by decide) rfl,
    h2.2.2 ord0 1 none (by decide) (by decide)⟩

/-- C3 fails as stated: with the same key and candidate, the absent-record
failure and the hash-mismatch failure both carry status 400 but have
different response bodies, so the two responses are not identical. -/
theorem C3_counterexample :
    (verify_otp_route cfg0 stEmpty 0 "+15551234567" "111111" "j").1 =
      .error ⟨400, "OTP not found or expired"⟩ ∧
    (verify_otp_route cfg0 stOtp 0 "+15551234567" "999999" "j").1 =
      .error ⟨400, "Invalid OTP"⟩ ∧
    ((⟨400, "OTP not found or expired"⟩ : HErr) ≠ ⟨400, "Invalid OTP"⟩) := by
  refine ⟨by decide, by decide, by decide⟩

/-- C3 amended: the absent-record and mismatch failures of both OTP
verification routes carry the same status code 400, but their bodies differ:
"OTP not found or expired" for an absent or expired record and "Invalid OTP"
for a hash mismatch. -/
theorem C3_amended_status_merged_bodies_differ (cfg : Config) (st : St)
    (now : Nat) (phoneRaw otp jti phone oid : String)
    (hn : normalize_phone_e164 cfg.isValid phoneRaw = .ok phone) :
    (redisGet st.redis now (otp_key phone) = none →
      (verify_otp_route cfg st now phoneRaw otp jti).1 =
        .error ⟨400, "OTP not found or expired"⟩) ∧
    (∀ s, redisGet st.redis now (otp_key phone) = some s → cfg.hash otp ≠ s →
      (verify_otp_route cfg st now phoneRaw otp jti).1 =
        .error ⟨400, "Invalid OTP"⟩) ∧
    (∀ auth, redisGet st.redis now (delivery_otp_key oid) = none →
      (verify_order_delivery cfg st now auth oid otp).1 =
        .error ⟨400, "OTP not found or expired"⟩) ∧
    (∀ auth s, redisGet st.redis now (delivery_otp_key oid) = some s →
      cfg.hash otp ≠ s →
      (verify_order_delivery cfg st now auth oid otp).1 =
        .error ⟨400, "Invalid OTP"⟩) := by
  refine ⟨?_, ?_, ?_, ?_⟩
  · intro hnone
    simp only [verify_otp_route, hn, hnone]
  · intro s hs hne
    simp only [verify_otp_route, hn, hs]
    simp [hne]
  · intro auth hnone
    simp only [verify_order_delivery, hnone]
  · intro auth s hs hne
    simp only [verify_order_delivery, hs]
    simp [hne]

/-- Witness for the amended C3 at concrete states. -/
theorem C3_amended_status_merged_bodies_differ_witness :
    (verify_otp_route cfg0 stEmpty 0 "+15551234567" "111111" "j").1 =
      .error ⟨400, "OTP not found or expired"⟩ ∧
    (verify_otp_route cfg0 stOtp 0 "+15551234567" "999999" "j").1 =
      .error ⟨400, "Invalid OTP"⟩ ∧
    (verify_order_delivery cfg0 stEmpty 0 none oid0 "123456").1 =
      .error ⟨400, "OTP not found or expired"⟩ ∧
    (verify_order_delivery cfg0 st0 0 none oid0 "999999").1 =
      .error ⟨400, "Invalid OTP"⟩ := by
  have hE := C3_amended_status_merged_bodies_differ cfg0 stEmpty 0
    "+15551234567" "111111" "j" "+15551234567" oid0 (by decide)
  have hO := C3_amended_status_merged_bodies_differ cfg0 stOtp 0
    "+15551234567" "999999" "j" "+15551234567" oid0 (by decide)
  have hD := C3_amended_status_merged_bodies_differ cfg0 st0 0
    "+15551234567" "999999" "j" "+15551234567" oid0 (by decide)
  refine ⟨hE.1 (by decide), hO.2.1 (cfg0.hash "111111") (by decide) (by decide),
    hE.2.2.1 none (by decide), ?_⟩
  have hD2 := C3_amended_status_merged_bodies_differ cfg0 st0 0
    "+15551234567" "999999" "j" "+15551234567" oid0 (by decide)
  exact hD2.2.2.2 none (cfg0.hash "123456") (by decide) (by decide)

/-! ### C7: credential issuance and authentication -/

/-- C7: a token freshly issued for an identity authenticates to exactly that
identity while it is valid; any token authenticated at or after its expiry
fails with the expired error (and 401 "Token expired" at the route level);
any structure failure or signature-key mismatch fails with the invalid
error. -/
theorem C7_token_roundtrip (cfg : Config) (phone : String) (now : Nat)
    (jti : String) :
    (∀ t, now ≤ t → t < now + cfg.expireSeconds →
      jwt_decode cfg.secretKey t (create_access_token cfg phone now jti) =
        .ok phone) ∧
    (∀ t, now + cfg.expireSeconds ≤ t →
      jwt_decode cfg.secretKey t (create_access_token cfg phone now jti) =
        .error .expired ∧
      get_current_user cfg.secretKey t
          (some (create_access_token cfg phone now jti)) =
        .error ⟨401, "Token expired"⟩) ∧
    (∀ raw key t, jwt_decode key t (Token.malformed raw) = .error .invalid) ∧
    (∀ key t, key ≠ cfg.secretKey →
      jwt_decode key t (create_access_token cfg phone now jti) =
        .error .invalid) := by
  refine ⟨?_, ?_, ?_, ?_⟩
  · intro t h1 h2
    have h3 : ¬ (t < now) := Nat.not_lt.mpr h1
    have h4 : ¬ (now + cfg.expireSeconds ≤ t) := Nat.not_le.mpr h2
    simp [jwt_decode, create_access_token, h3, h4]
  · intro t h1
    have h3 : ¬ (t < now) :=
      Nat.not_lt.mpr (le_trans (Nat.le_add_right now cfg.expireSeconds) h1)
    constructor
    · simp [jwt_decode, create_access_token, h3, h1]
    · simp [get_current_user, jwt_decode, create_access_token, h3, h1]
  · intro raw key t
    rfl
  · intro key t hk
    simp [jwt_decode, create_access_token, Ne.symm hk]

/-- Witness for C7 with a 1-second expiry: valid at time 0, expired at
time 2 (the claim's example), malformed and wrong-key tokens invalid. -/
theorem C7_token_roundtrip_witness :
    jwt_decode cfg1.secretKey 0 (create_access_token cfg1 "+15551234567" 0 "j") =
      .ok "+15551234567" ∧
    jwt_decode cfg1.secretKey 2 (create_access_token cfg1 "+15551234567" 0 "j") =
      .error .expired ∧
    get_current_user cfg1.secretKey 2
        (some (create_access_token cfg1 "+15551234567" 0 "j")) =
      .error ⟨401, "Token expired"⟩ ∧
    jwt_decode "k" 0 (Token.malformed "garbage") = .error .invalid ∧
    jwt_decode "wrong" 0 (create_access_token cfg1 "+15551234567" 0 "j") =
      .error .invalid := by
  have h := C7_token_roundtrip cfg1 "+15551234567" 0 "j"
  exact ⟨h.1 0 (by decide) (by decide), (h.2.1 2 (by decide)).1,
    (h.2.1 2 (by decide)).2, h.2.2.1 "garbage" "k" 0,
    h.2.2.2 "wrong" 0 (by decide)⟩

/-! ### C8: phone normalization is idempotent -/

theorem isSeparator_eq_false_of_isDigit (c : Char) (h : c.isDigit = true) :
    isSeparator c = false := by
  by_contra hb
  have hsep : isSeparator c = true := by
    cases hx : isSeparator c
    · exact absurd hx hb
    · rfl
  unfold isSeparator at hsep
  simp only [Bool.or_eq_true, beq_iff_eq] at hsep
  rcases hsep with (((h1 | h1) | h1) | h1) | h1 <;> subst h1 <;>
    exact absurd h (by decide)

theorem parsePhone_spec (s : String) (digits : List Char)
    (h : parsePhone s = some digits) :
    digits ≠ [] ∧ digits.all Char.isDigit = true := by
  unfold parsePhone at h
  split at h
  · split at h
    · rename_i hc
      injection h with h'
      subst h'
      exact hc
    · cases h
  · cases h

theorem parsePhone_mk_plus (digits : List Char) (hne : digits ≠ [])
    (hd : digits.all Char.isDigit = true) :
    parsePhone (String.mk ('+' :: digits)) = some digits := by
  have hfilter : ('+' :: digits).filter (fun c => !(isSeparator c)) =
      '+' :: digits := by
    rw [List.filter_cons_of_pos]
    · congr 1
      apply List.filter_eq_self.mpr
      intro c hc
      have hcd : c.isDigit = true := by
        rw [List.all_eq_true] at hd
        exact hd c hc
      simp [isSeparator_eq_false_of_isDigit c hcd]
    · decide
  unfold parsePhone
  rw [show (String.mk ('+' :: digits)).data = '+' :: digits from rfl]
  rw [hfilter]
  simp [hne, hd]

/-- C8: when normalize_phone_e164 succeeds, applying it to its own output
succeeds and returns the same identity. -/
theorem C8_normalize_idempotent (isValid : List Char → Bool) (x y : String)
    (h : normalize_phone_e164 isValid x = .ok y) :
    normalize_phone_e164 isValid y = .ok y := by
  unfold normalize_phone_e164 at h
  split at h
  · rename_i digits hp
    split at h
    · rename_i hv
      injection h with h'
      obtain ⟨hne, hd⟩ := parsePhone_spec x digits hp
      subst h'
      unfold normalize_phone_e164
      rw [parsePhone_mk_plus digits hne hd]
      simp [hv]
    · cases h
  · cases h

/-- Witness for C8: a formatted US number normalizes to E.164 and the output
renormalizes to itself. -/
theorem C8_normalize_idempotent_witness :
    normalize_phone_e164 (fun _ => true) "+1 415-555-2671" = .ok "+14155552671" ∧
    normalize_phone_e164 (fun _ => true) "+14155552671" = .ok "+14155552671" :=
  ⟨by decide,
   C8_normalize_idempotent (fun _ => true) "+1 415-555-2671" "+14155552671"
     (by decide)⟩

/-! ### Order and inventory lemmas -/

theorem findOrder_cons (a : String × Order) (l : List (String × Order))
    (oid : String) :
    findOrder (a :: l) oid = if a.1 = oid then some a.2 else findOrder l oid := by
  unfold findOrder
  by_cases h : a.1 = oid
  · have hb : (a.1 == oid) = true := by simp [h]
    rw [List.find?_cons, hb]
    simp [h]
  · have hb : (a.1 == oid) = false := by simp [h]
    rw [List.find?_cons, hb]
    simp [h]

theorem findOrder_setOrderStatus (os : List (String × Order)) (oid s oid₂ : String) :
    findOrder (setOrderStatus os oid s) oid₂ =
      if oid₂ = oid then (findOrder os oid).map (fun o => { o with status := s })
      else findOrder os oid₂ := by
  induction os with
  | nil => simp [setOrderStatus, findOrder]
  | cons e rest ih =>
    by_cases he : e.1 = oid
    · subst he
      by_cases hm : oid₂ = e.1
      · subst hm
        simp [setOrderStatus, findOrder_cons]
      · simp [setOrderStatus, findOrder_cons, hm, Ne.symm hm]
    · by_cases hm : oid₂ = oid
      · subst hm
        have hne : e.1 ≠ oid₂ := he
        simp [setOrderStatus, findOrder_cons, he, hne, ih]
      · by_cases h2 : e.1 = oid₂
        · simp [setOrderStatus, findOrder_cons, he, hm, h2]
        · simp [setOrderStatus, findOrder_cons, he, hm, h2, ih]

theorem findProduct_cons (p : Product) (ps : List Product) (pid : String) :
    findProduct (p :: ps) pid = if p.id = pid then some p else findProduct ps pid := by
  unfold findProduct
  by_cases h : p.id = pid
  · have hb : (p.id == pid) = true := by simp [h]
    rw [List.find?_cons, hb]
    simp [h]
  · have hb : (p.id == pid) = false := by simp [h]
    rw [List.find?_cons, hb]
    simp [h]

theorem findProduct_decProduct (ps : List Product) (pid : String) (q : Int)
    (pid₂ : String) :
    findProduct (decProduct ps pid q) pid₂ =
      if pid₂ = pid then
        (findProduct ps pid).map (fun p => { p with quantity := p.quantity - q })
      else findProduct ps pid₂ := by
  induction ps with
  | nil => simp [decProduct, findProduct]
  | cons p rest ih =>
    by_cases he : p.id = pid
    · subst he
      by_cases hm : pid₂ = p.id
      · subst hm
        simp [decProduct, findProduct_cons]
      · simp [decProduct, findProduct_cons, hm, Ne.symm hm]
    · by_cases hm : pid₂ = pid
      · subst hm
        have hne : p.id ≠ pid₂ := he
        simp [decProduct, findProduct_cons, he, hne, ih]
      · by_cases h2 : p.id = pid₂
        · simp [decProduct, findProduct_cons, he, hm, h2]
        · simp [decProduct, findProduct_cons, he, hm, h2, ih]

theorem lookupQty_decProduct (ps : List Product) (pid : String) (q : Int)
    (pid₂ : String) :
    lookupQty (decProduct ps pid q) pid₂ =
      if pid₂ = pid then (lookupQty ps pid).map (fun v => v - q)
      else lookupQty ps pid₂ := by
  unfold lookupQty
  rw [findProduct_decProduct]
  by_cases h : pid₂ = pid
  · simp only [if_pos h]
    cases findProduct ps pid <;> simp
  · simp only [if_neg h]

theorem lookupQty_applyDecrements (items : List OrderItem) (ps : List Product)
    (pid : String) :
    lookupQty (applyDecrements ps items) pid =
      (lookupQty ps pid).map (fun v => v - orderedQty items pid) := by
  induction items generalizing ps with
  | nil =>
    simp only [applyDecrements, orderedQty]
    cases lookupQty ps pid <;> simp
  | cons it rest ih =>
    simp only [applyDecrements]
    rw [ih, lookupQty_decProduct]
    by_cases h : pid = it.id
    · subst h
      simp only [if_pos rfl, orderedQty, if_pos rfl]
      cases lookupQty ps it.id <;> simp [Function.comp, sub_sub]
    · have h2 : it.id ≠ pid := Ne.symm h
      simp only [orderedQty, if_neg h2, if_neg h, zero_add]

/-- C5: a delivery verification with the correct code on an existing order
succeeds, marks the order Delivered, decrements every product's on-hand
quantity by the total quantity that order's lines request for it, and deletes
the OTP record, so any second verification of the same order fails with 400
"OTP not found or expired" and leaves the state (stock included) unchanged. -/
theorem C5_delivery_exactly_once (cfg : Config) (st : St) (now : Nat)
    (auth : Option Token) (oid otp : String) (o : Order)
    (r : Except HErr (String × String) × St)
    (hget : redisGet st.redis now (delivery_otp_key oid) = some (cfg.hash otp))
    (hid : isValidObjectId oid = true)
    (hfind : findOrder st.orders oid = some o)
    (hr : r = verify_order_delivery cfg st now auth oid otp) :
    r.1 = .ok (oid, "Delivered") ∧
    findOrder r.2.orders oid = some { o with status := "Delivered" } ∧
    (∀ pid, lookupQty r.2.products pid =
      (lookupQty st.products pid).map (fun v => v - orderedQty o.items pid)) ∧
    (∀ now₂ auth₂ otp₂,
      verify_order_delivery cfg r.2 now₂ auth₂ oid otp₂ =
        (.error ⟨400, "OTP not found or expired"⟩, r.2)) := by
  have hr2 : r = (.ok (oid, "Delivered"),
      { st with orders := setOrderStatus st.orders oid "Delivered",
                redis := redisDelete st.redis (delivery_otp_key oid),
                products := applyDecrements st.products o.items }) := by
    rw [hr]
    simp only [verify_order_delivery, hget, hfind]
    simp [hid]
  refine ⟨by rw [hr2], ?_, ?_, ?_⟩
  · rw [hr2]
    show findOrder (setOrderStatus st.orders oid "Delivered") oid = _
    rw [findOrder_setOrderStatus]
    simp [hfind]
  · intro pid
    rw [hr2]
    show lookupQty (applyDecrements st.products o.items) pid = _
    rw [lookupQty_applyDecrements]
  · intro now₂ auth₂ otp₂
    have hnone : redisGet r.2.redis now₂ (delivery_otp_key oid) = none := by
      rw [hr2]
      exact redisGet_redisDelete_self _ _ _
    simp only [verify_order_delivery, hnone]

/-- Witness for C5: the claim's example — order with one line of product p1,
quantity 2, against stock 10: stock is 8 after the first verification and
still 8 after the (failing) second one. -/
theorem C5_delivery_exactly_once_witness :
    (verify_order_delivery cfg0 st0 0 none oid0 "123456").1 =
      .ok (oid0, "Delivered") ∧
    findOrder (verify_order_delivery cfg0 st0 0 none oid0 "123456").2.orders oid0 =
      some { ord0 with status := "Delivered" } ∧
    lookupQty (verify_order_delivery cfg0 st0 0 none oid0 "123456").2.products "p1" =
      some 8 ∧
    lookupQty (verify_order_delivery cfg0
        (verify_order_delivery cfg0 st0 0 none oid0 "123456").2
        1 none oid0 "123456").2.products "p1" = some 8 := by
  have h := C5_delivery_exactly_once cfg0 st0 0 none oid0 "123456" ord0 _
    (by decide) (by decide) (by decide) rfl
  refine ⟨h.1, h.2.1, (h.2.2.1 "p1").trans (by decide), ?_⟩
  rw [h.2.2.2 1 none "123456"]
  exact (h.2.2.1 "p1").trans (by decide)

/-! ### Cart lemmas -/

theorem findCart_cons (c : Cart) (rest : List Cart) (phone : String) :
    findCart (c :: rest) phone =
      if c.phone = phone then some c else findCart rest phone := by
  unfold findCart
  by_cases h : c.phone = phone
  · have hb : (c.phone == phone) = true := by simp [h]
    rw [List.find?_cons, hb]
    simp [h]
  · have hb : (c.phone == phone) = false := by simp [h]
    rw [List.find?_cons, hb]
    simp [h]

theorem findItemQty_cons (it : CartItem) (rest : List CartItem) (pid : String) :
    findItemQty (it :: rest) pid =
      if it.id = pid then some it.qty else findItemQty rest pid := by
  unfold findItemQty
  by_cases h : it.id = pid
  · have hb : (it.id == pid) = true := by simp [h]
    rw [List.find?_cons, hb]
    simp [h]
  · have hb : (it.id == pid) = false := by simp [h]
    rw [List.find?_cons, hb]
    simp [h]

theorem itemIds_cons (it : CartItem) (rest : List CartItem) :
    itemIds (it :: rest) = it.id :: itemIds rest := rfl

theorem bumpItems_cons_ne (it : CartItem) (rest : List CartItem) (pid : String)
    (q : Int) (he : it.id ≠ pid) :
    bumpItems (it :: rest) pid q = it :: bumpItems rest pid q := by
  have hb : (it.id == pid) = false := by simp [he]
  simp [bumpItems, hb]

theorem itemIds_bumpItems_of_mem (items : List CartItem) (pid : String) (q : Int)
    (h : pid ∈ itemIds items) :
    itemIds (bumpItems items pid q) = itemIds items := by
  induction items with
  | nil => simp [itemIds] at h
  | cons it rest ih =>
    by_cases he : it.id = pid
    · simp [bumpItems, he, itemIds]
    · rw [itemIds_cons] at h
      rcases List.mem_cons.mp h with h1 | h1
      · exact absurd h1.symm he
      · rw [bumpItems_cons_ne it rest pid q he, itemIds_cons, itemIds_cons, ih h1]

theorem itemIds_bumpItems_of_not_mem (items : List CartItem) (pid : String)
    (q : Int) (h : pid ∉ itemIds items) :
    itemIds (bumpItems items pid q) = itemIds items ++ [pid] := by
  induction items with
  | nil => simp [bumpItems, itemIds]
  | cons it rest ih =>
    rw [itemIds_cons] at h
    have h1 : pid ≠ it.id := fun hh => h (hh ▸ List.mem_cons_self _ _)
    have h2 : pid ∉ itemIds rest := fun hh => h (List.mem_cons_of_mem _ hh)
    rw [bumpItems_cons_ne it rest pid q (Ne.symm h1), itemIds_cons, itemIds_cons,
      ih h2, List.cons_append]

theorem nodup_bumpItems (items : List CartItem) (pid : String) (q : Int)
    (h : (itemIds items).Nodup) : (itemIds (bumpItems items pid q)).Nodup := by
  by_cases hm : pid ∈ itemIds items
  · rwa [itemIds_bumpItems_of_mem items pid q hm]
  · rw [itemIds_bumpItems_of_not_mem items pid q hm]
    refine List.Nodup.append h (List.nodup_singleton pid) ?_
    intro a ha hb
    simp only [List.mem_singleton] at hb
    subst hb
    exact hm ha

theorem findItemQty_bumpItems_self (items : List CartItem) (pid : String)
    (q v : Int) (h : findItemQty items pid = some v) :
    findItemQty (bumpItems items pid q) pid = some (v + q) := by
  induction items with
  | nil => simp [findItemQty] at h
  | cons it rest ih =>
    by_cases he : it.id = pid
    · rw [findItemQty_cons, if_pos he] at h
      injection h with h'
      subst h'
      simp [bumpItems, he, findItemQty_cons]
    · rw [findItemQty_cons, if_neg he] at h
      rw [bumpItems_cons_ne it rest pid q he, findItemQty_cons, if_neg he]
      exact ih h

theorem mem_upsertCart (cs : List Cart) (phone : String) (items : List CartItem)
    (c : Cart) (h : c ∈ upsertCart cs phone items) :
    c ∈ cs ∨ c = ⟨phone, items⟩ := by
  induction cs with
  | nil =>
    simp only [upsertCart, List.mem_singleton] at h
    right
    exact h
  | cons c₀ rest ih =>
    by_cases he : c₀.phone = phone
    · have hstep : upsertCart (c₀ :: rest) phone items =
          ⟨phone, items⟩ :: rest := by
        have hb : (c₀.phone == phone) = true := by simp [he]
        simp [upsertCart, hb]
      rw [hstep] at h
      rcases List.mem_cons.mp h with h1 | h1
      · right
        exact h1
      · left
        exact List.mem_cons_of_mem _ h1
    · have hstep : upsertCart (c₀ :: rest) phone items =
          c₀ :: upsertCart rest phone items := by
        have hb : (c₀.phone == phone) = false := by simp [he]
        simp [upsertCart, hb]
      rw [hstep] at h
      rcases List.mem_cons.mp h with h1 | h1
      · left
        rw [h1]
        exact List.mem_cons_self _ _
      · rcases ih h1 with h2 | h2
        · left
          exact List.mem_cons_of_mem _ h2
        · right
          exact h2

theorem mem_deleteCart (cs : List Cart) (phone : String) (c : Cart)
    (h : c ∈ deleteCart cs phone) : c ∈ cs := by
  induction cs with
  | nil => simp [deleteCart] at h
  | cons c₀ rest ih =>
    by_cases he : c₀.phone = phone
    · have hstep : deleteCart (c₀ :: rest) phone = rest := by
        have hb : (c₀.phone == phone) = true := by simp [he]
        simp [deleteCart, hb]
      rw [hstep] at h
      exact List.mem_cons_of_mem _ h
    · have hstep : deleteCart (c₀ :: rest) phone = c₀ :: deleteCart rest phone := by
        have hb : (c₀.phone == phone) = false := by simp [he]
        simp [deleteCart, hb]
      rw [hstep] at h
      rcases List.mem_cons.mp h with h1 | h1
      · rw [h1]
        exact List.mem_cons_self _ _
      · exact List.mem_cons_of_mem _ (ih h1)

theorem findCart_upsertCart_self (cs : List Cart) (phone : String)
    (items : List CartItem) :
    findCart (upsertCart cs phone items) phone = some ⟨phone, items⟩ := by
  induction cs with
  | nil =>
    simp only [upsertCart]
    rw [findCart_cons]
    simp
  | cons c₀ rest ih =>
    by_cases he : c₀.phone = phone
    · have hstep : upsertCart (c₀ :: rest) phone items =
          ⟨phone, items⟩ :: rest := by
        have hb : (c₀.phone == phone) = true := by simp [he]
        simp [upsertCart, hb]
      rw [hstep, findCart_cons]
      simp
    · have hstep : upsertCart (c₀ :: rest) phone items =
          c₀ :: upsertCart rest phone items := by
        have hb : (c₀.phone == phone) = false := by simp [he]
        simp [upsertCart, hb]
      rw [hstep, findCart_cons, if_neg he]
      exact ih

/-! ### Handlers leave the cart collection untouched (or characterized) -/

theorem send_otp_route_carts (cfg : Config) (st : St) (now : Nat)
    (p o : String) : ((send_otp_route cfg st now p o).2).carts = st.carts := by
  unfold send_otp_route
  repeat' split
  all_goals rfl

theorem verify_otp_route_carts (cfg : Config) (st : St) (now : Nat)
    (p o j : String) : ((verify_otp_route cfg st now p o j).2).carts = st.carts := by
  unfold verify_otp_route
  repeat' split
  all_goals rfl

theorem save_user_details_carts (cfg : Config) (st : St) (now : Nat)
    (auth : Option Token) (n e a : String) :
    ((save_user_details cfg st now auth n e a).2).carts = st.carts := by
  unfold save_user_details
  repeat' split
  all_goals rfl

theorem update_order_status_carts (st : St) (auth : Option Token)
    (oid s : String) : ((update_order_status st auth oid s).2).carts = st.carts := by
  unfold update_order_status
  repeat' split
  all_goals rfl

theorem send_delivery_otp_carts (cfg : Config) (st : St) (now : Nat)
    (auth : Option Token) (oid otp : String) :
    ((send_delivery_otp cfg st now auth oid otp).2).carts = st.carts := by
  unfold send_delivery_otp
  repeat' split
  all_goals rfl

theorem verify_order_delivery_carts (cfg : Config) (st : St) (now : Nat)
    (auth : Option Token) (oid otp : String) :
    ((verify_order_delivery cfg st now auth oid otp).2).carts = st.carts := by
  unfold verify_order_delivery
  repeat' split
  all_goals rfl

theorem place_order_carts (cfg : Config) (st : St) (now : Nat)
    (auth : Option Token) (noid : String) :
    ((place_order cfg st now auth noid).2).carts = st.carts ∨
    ∃ phone, ((place_order cfg st now auth noid).2).carts =
      deleteCart st.carts phone := by
  unfold place_order
  repeat' split
  all_goals first
  | (left; rfl)
  | (right; exact ⟨_, rfl⟩)

theorem add_to_cart_carts (cfg : Config) (st : St) (now : Nat)
    (auth : Option Token) (pid q : Int) :
    ((add_to_cart cfg st now auth pid q).2).carts = st.carts ∨
    ∃ phone items,
      (items = [] ∨ ∃ c, c ∈ st.carts ∧ items = c.items) ∧
      ((add_to_cart cfg st now auth pid q).2).carts =
        upsertCart st.carts phone (bumpItems items (toString pid) q) := by
  unfold add_to_cart
  split
  · left
    rfl
  · rename_i phone hphone
    split
    · left
      rfl
    · split
      · left
        rfl
      · right
        cases hfc : findCart st.carts phone with
        | none =>
          refine ⟨phone, [], Or.inl rfl, ?_⟩
          simp only [hfc]
        | some c₀ =>
          refine ⟨phone, c₀.items,
            Or.inr ⟨c₀, List.mem_of_find?_eq_some hfc, rfl⟩, ?_⟩
          simp only [hfc]

theorem add_to_cart_preserves_wf (cfg : Config) (st : St) (now : Nat)
    (auth : Option Token) (pid q : Int) (h : cartsWF st.carts) :
    cartsWF ((add_to_cart cfg st now auth pid q).2.carts) := by
  rcases add_to_cart_carts cfg st now auth pid q with heq | ⟨phone, items, hitems, heq⟩
  · rw [heq]
    exact h
  · rw [heq]
    intro c hc
    rcases mem_upsertCart _ _ _ _ hc with hmem | rfl
    · exact h c hmem
    · apply nodup_bumpItems
      rcases hitems with rfl | ⟨c₀, hc₀, rfl⟩
      · simp [itemIds]
      · exact h c₀ hc₀

theorem step_preserves_wf (cfg : Config) (st : St) (op : Op)
    (h : cartsWF st.carts) : cartsWF ((step cfg st op).carts) := by
  cases op with
  | sendOtp now p o =>
    simp only [step]
    rw [send_otp_route_carts]
    exact h
  | verifyOtp now p o j =>
    simp only [step]
    rw [verify_otp_route_carts]
    exact h
  | addToCart now auth pid q =>
    simp only [step]
    exact add_to_cart_preserves_wf cfg st now auth pid q h
  | saveUserDetails now auth n e a =>
    simp only [step]
    rw [save_user_details_carts]
    exact h
  | placeOrder now auth noid =>
    simp only [step]
    rcases place_order_carts cfg st now auth noid with heq | ⟨phone, heq⟩
    · rw [heq]
      exact h
    · rw [heq]
      intro c hc
      exact h c (mem_deleteCart _ _ _ hc)
  | updateOrderStatus auth oid s =>
    simp only [step]
    rw [update_order_status_carts]
    exact h
  | sendDeliveryOtp now auth oid otp =>
    simp only [step]
    rw [send_delivery_otp_carts]
    exact h
  | verifyDelivery now auth oid otp =>
    simp only [step]
    rw [verify_order_delivery_carts]
    exact h

/-- C10: starting from carts with no duplicate product lines, any sequence of
requests leaves every cart free of duplicate product lines; and a successful
add of a product already in the caller's cart rewrites that single line,
keeping the line ids unchanged and increasing the line's quantity by the
requested amount. -/
theorem C10_cart_lines_unique (cfg : Config) (st : St) (ops : List Op)
    (h : cartsWF st.carts) :
    cartsWF ((ops.foldl (step cfg) st).carts) ∧
    (∀ stW now auth pid q phone p c,
      get_current_user cfg.secretKey now auth = .ok phone →
      findProduct stW.products (toString pid) = some p →
      0 < q →
      findCart stW.carts phone = some c →
      toString pid ∈ itemIds c.items →
      findCart ((add_to_cart cfg stW now auth pid q).2).carts phone =
        some ⟨phone, bumpItems c.items (toString pid) q⟩ ∧
      itemIds (bumpItems c.items (toString pid) q) = itemIds c.items ∧
      (∀ v, findItemQty c.items (toString pid) = some v →
        findItemQty (bumpItems c.items (toString pid) q) (toString pid) =
          some (v + q))) := by
  constructor
  · induction ops generalizing st with
    | nil => exact h
    | cons op rest ih => exact ih _ (step_preserves_wf cfg st op h)
  · intro stW now auth pid q phone p c hauth hprod hq hc hmem
    have hcarts : ((add_to_cart cfg stW now auth pid q).2).carts =
        upsertCart stW.carts phone (bumpItems c.items (toString pid) q) := by
      simp only [add_to_cart, hauth, hprod, hc]
      simp [not_le.mpr hq]
    refine ⟨?_, itemIds_bumpItems_of_mem c.items (toString pid) q hmem,
      fun v hv => findItemQty_bumpItems_self c.items (toString pid) q v hv⟩
    rw [hcarts]
    exact findCart_upsertCart_self _ _ _

/-- Witness for C10: one add of 2 more units of product "5" to a cart that
already holds 2 of them, under a valid bearer token. -/
theorem C10_cart_lines_unique_witness :
    cartsWF (([Op.addToCart 1 (some tok0) 5 2].foldl (step cfg0) stC).carts) ∧
    findCart ((add_to_cart cfg0 stC 1 (some tok0) 5 2).2).carts "+15551234567" =
      some ⟨"+15551234567", [⟨"5", (4 : Int)⟩]⟩ ∧
    itemIds (bumpItems [⟨"5", (2 : Int)⟩] "5" 2) = itemIds [⟨"5", (2 : Int)⟩] ∧
    findItemQty (bumpItems [⟨"5", (2 : Int)⟩] "5" 2) "5" = some 4 := by
  have h := C10_cart_lines_unique cfg0 stC [Op.addToCart 1 (some tok0) 5 2]
    (by unfold cartsWF; decide)
  have h2 := h.2 stC 1 (some tok0) 5 2 "+15551234567" ⟨"5", "X", 3, 7⟩
    ⟨"+15551234567", [⟨"5", 2⟩]⟩ (by decide) (by decide) (by decide)
    (by decide) (by decide)
  exact ⟨h.1, h2.1.trans (by decide), h2.2.1, (h2.2.2 2 (by decide)).trans (by decide)⟩

/-! ### C1: which routes are gated by the bearer credential -/

theorem get_current_user_error_status (key : String) (now : Nat)
    (auth : Option Token) (e : HErr)
    (h : get_current_user key now auth = .error e) :
    e.status = 401 ∨ e.status = 403 := by
  cases auth with
  | none =>
    simp only [get_current_user, Except.error.injEq] at h
    rw [← h]
    right
    rfl
  | some t =>
    simp only [get_current_user] at h
    cases hd : jwt_decode key now t with
    | ok s =>
      rw [hd] at h
      simp at h
    | error je =>
      rw [hd] at h
      cases je <;>
        (simp only [Except.error.injEq] at h; rw [← h]; left; rfl)

/-- C1 fails as stated: /order/verify-delivery declares no auth dependency,
so a request carrying no credential at all is not rejected with 401; it runs
the full business logic (here: succeeds and mutates the store). -/
theorem C1_counterexample :
    (verify_order_delivery cfg0 st0 0 none oid0 "123456").1 =
      .ok (oid0, "Delivered") ∧
    (verify_order_delivery cfg0 st0 0 none oid0 "123456").2 ≠ st0 ∧
    (update_order_status st0 none oid0 "Delivered").1 = .ok "Delivered" := by
  refine ⟨by decide, by decide, by decide⟩

/-- C1 amended: the routes that declare the auth dependency (cart add, cart
read, user details save/read, order place, orders list) reject a request
whose credential fails authentication before any business logic runs —
leaving the state unchanged — with 403 for a missing credential and 401 for
an invalid or expired one; the delivery/status/admin routes
(/order/send-delivery-otp, /order/verify-delivery, /order/update-status,
/admin/orders) declare no auth dependency (see counterexample). -/
theorem C1_amended_auth_fails_closed (cfg : Config) (st : St) (now : Nat)
    (auth : Option Token) (e : HErr)
    (h : get_current_user cfg.secretKey now auth = .error e) :
    (∀ pid q, add_to_cart cfg st now auth pid q = (.error e, st)) ∧
    (get_cart cfg st now auth = .error e) ∧
    (∀ n em a, save_user_details cfg st now auth n em a = (.error e, st)) ∧
    (get_user_details cfg st now auth = .error e) ∧
    (∀ noid, place_order cfg st now auth noid = (.error e, st)) ∧
    (get_orders cfg st now auth = .error e) ∧
    (e.status = 401 ∨ e.status = 403) := by
  refine ⟨?_, ?_, ?_, ?_, ?_, ?_, get_current_user_error_status _ _ _ _ h⟩
  · intro pid q
    simp [add_to_cart, h]
  · simp [get_cart, h]
  · intro n em a
    simp [save_user_details, h]
  · simp [get_user_details, h]
  · intro noid
    simp [place_order, h]
  · simp [get_orders, h]

/-- Witness for the amended C1: a request with no credential against every
protected route. -/
theorem C1_amended_auth_fails_closed_witness :
    add_to_cart cfg0 st0 0 none 1 1 =
      (.error ⟨403, "Not authenticated"⟩, st0) ∧
    get_cart cfg0 st0 0 none = .error ⟨403, "Not authenticated"⟩ ∧
    save_user_details cfg0 st0 0 none "n" "e" "a" =
      (.error ⟨403, "Not authenticated"⟩, st0) ∧
    get_user_details cfg0 st0 0 none = .error ⟨403, "Not authenticated"⟩ ∧
    place_order cfg0 st0 0 none "x" = (.error ⟨403, "Not authenticated"⟩, st0) ∧
    get_orders cfg0 st0 0 none = .error ⟨403, "Not authenticated"⟩ := by
  have h := C1_amended_auth_fails_closed cfg0 st0 0 none
    ⟨403, "Not authenticated"⟩ rfl
  exact ⟨h.1 1 1, h.2.1, h.2.2.1 "n" "e" "a", h.2.2.2.1, h.2.2.2.2.1 "x",
    h.2.2.2.2.2.1⟩

/-! ### C2: which operations can write status "Delivered" -/

theorem findOrder_append_of_some (os : List (String × Order))
    (e : String × Order) (oid : String) (o : Order)
    (h : findOrder os oid = some o) : findOrder (os ++ [e]) oid = some o := by
  induction os with
  | nil => simp [findOrder] at h
  | cons a rest ih =>
    rw [findOrder_cons] at h
    rw [List.cons_append, findOrder_cons]
    by_cases ha : a.1 = oid
    · rwa [if_pos ha] at h ⊢
    · rw [if_neg ha] at h ⊢
      exact ih h

theorem findOrder_append_of_none (os : List (String × Order))
    (e : String × Order) (oid : String)
    (h : findOrder os oid = none) :
    findOrder (os ++ [e]) oid = if e.1 = oid then some e.2 else none := by
  induction os with
  | nil =>
    rw [List.nil_append, findOrder_cons]
    by_cases ha : e.1 = oid
    · rw [if_pos ha, if_pos ha]
    · rw [if_neg ha, if_neg ha]
      rfl
  | cons a rest ih =>
    rw [findOrder_cons] at h
    rw [List.cons_append, findOrder_cons]
    by_cases ha : a.1 = oid
    · rw [if_pos ha] at h
      cases h
    · rw [if_neg ha] at h ⊢
      exact ih h

theorem send_otp_route_orders (cfg : Config) (st : St) (now : Nat)
    (p o : String) : ((send_otp_route cfg st now p o).2).orders = st.orders := by
  unfold send_otp_route
  repeat' split
  all_goals rfl

theorem verify_otp_route_orders (cfg : Config) (st : St) (now : Nat)
    (p o j : String) :
    ((verify_otp_route cfg st now p o j).2).orders = st.orders := by
  unfold verify_otp_route
  repeat' split
  all_goals rfl

theorem add_to_cart_orders (cfg : Config) (st : St) (now : Nat)
    (auth : Option Token) (pid q : Int) :
    ((add_to_cart cfg st now auth pid q).2).orders = st.orders := by
  unfold add_to_cart
  repeat' split
  all_goals rfl

theorem save_user_details_orders (cfg : Config) (st : St) (now : Nat)
    (auth : Option Token) (n e a : String) :
    ((save_user_details cfg st now auth n e a).2).orders = st.orders := by
  unfold save_user_details
  repeat' split
  all_goals rfl

theorem send_delivery_otp_orders (cfg : Config) (st : St) (now : Nat)
    (auth : Option Token) (oid otp : String) :
    ((send_delivery_otp cfg st now auth oid otp).2).orders = st.orders := by
  unfold send_delivery_otp
  repeat' split
  all_goals rfl

theorem place_order_orders (cfg : Config) (st : St) (now : Nat)
    (auth : Option Token) (noid : String) :
    ((place_order cfg st now auth noid).2).orders = st.orders ∨
    ∃ o, o.status = "Order Placed" ∧
      ((place_order cfg st now auth noid).2).orders = st.orders ++ [(noid, o)] := by
  unfold place_order
  repeat' split
  all_goals first
  | (left; rfl)
  | (right; exact ⟨_, rfl, rfl⟩)

theorem update_order_status_orders (st : St) (auth : Option Token)
    (oid s : String) :
    ((update_order_status st auth oid s).2).orders = st.orders ∨
    ((update_order_status st auth oid s).2).orders = setOrderStatus st.orders oid s := by
  unfold update_order_status
  repeat' split
  all_goals first
  | (left; rfl)
  | (right; rfl)

theorem verify_order_delivery_orders (cfg : Config) (st : St) (now : Nat)
    (auth : Option Token) (oid otp : String) :
    ((verify_order_delivery cfg st now auth oid otp).2).orders = st.orders ∨
    (((verify_order_delivery cfg st now auth oid otp).2).orders =
        setOrderStatus st.orders oid "Delivered" ∧
      redisGet st.redis now (delivery_otp_key oid) = some (cfg.hash otp)) := by
  cases hstored : redisGet st.redis now (delivery_otp_key oid) with
  | none =>
    left
    simp only [verify_order_delivery, hstored]
  | some stored =>
    by_cases hne : cfg.hash otp ≠ stored
    · left
      simp only [verify_order_delivery, hstored]
      simp [hne]
    · have heq : cfg.hash otp = stored := not_not.mp hne
      cases hid : isValidObjectId oid with
      | false =>
        left
        simp only [verify_order_delivery, hstored]
        simp [hne, hid]
      | true =>
        cases hford : findOrder st.orders oid with
        | none =>
          left
          simp only [verify_order_delivery, hstored, hford]
          simp [hne, hid]
        | some o =>
          right
          constructor
          · simp only [verify_order_delivery, hstored, hford]
            simp [hne, hid]
          · rw [heq]

/-- C2 fails as stated: update_order_status accepts "Delivered" in its status
whitelist and writes it directly, with an empty key-value store (no OTP was
ever issued, so no OTP check can have succeeded). -/
theorem C2_counterexample :
    stU.redis = [] ∧
    findOrder stU.orders oid0 = some ord0 ∧
    ord0.status = "Dispatched" ∧
    (update_order_status stU none oid0 "Delivered").1 = .ok "Delivered" ∧
    findOrder ((step cfg0 stU (Op.updateOrderStatus none oid0 "Delivered")).orders)
        oid0 = some { ord0 with status := "Delivered" } := by
  refine ⟨rfl, by decide, rfl, by decide, by decide⟩

/-- C2 amended: in any single request step, an order's status can become
"Delivered" in exactly two ways: a verify_order_delivery request for that
order whose candidate hash matches the live stored OTP hash, or an
update_order_status request for that order carrying status "Delivered"
(the latter is not gated by any OTP verification). -/
theorem C2_amended_delivered_writers (cfg : Config) (st : St) (op : Op)
    (oid : String) (o' : Order)
    (hafter : findOrder ((step cfg st op).orders) oid = some o')
    (hdel : o'.status = "Delivered")
    (hbefore : ∀ o, findOrder st.orders oid = some o → o.status ≠ "Delivered") :
    (∃ auth, op = .updateOrderStatus auth oid "Delivered") ∨
    (∃ now auth otp, op = .verifyDelivery now auth oid otp ∧
      redisGet st.redis now (delivery_otp_key oid) = some (cfg.hash otp)) := by
  cases op with
  | sendOtp now p o2 =>
    exfalso
    simp only [step] at hafter
    rw [send_otp_route_orders] at hafter
    exact hbefore o' hafter hdel
  | verifyOtp now p o2 j =>
    exfalso
    simp only [step] at hafter
    rw [verify_otp_route_orders] at hafter
    exact hbefore o' hafter hdel
  | addToCart now auth pid q =>
    exfalso
    simp only [step] at hafter
    rw [add_to_cart_orders] at hafter
    exact hbefore o' hafter hdel
  | saveUserDetails now auth n em a =>
    exfalso
    simp only [step] at hafter
    rw [save_user_details_orders] at hafter
    exact hbefore o' hafter hdel
  | sendDeliveryOtp now auth oid₂ otp =>
    exfalso
    simp only [step] at hafter
    rw [send_delivery_otp_orders] at hafter
    exact hbefore o' hafter hdel
  | placeOrder now auth noid =>
    exfalso
    simp only [step] at hafter
    rcases place_order_orders cfg st now auth noid with heq | ⟨onew, hstat, heq⟩
    · rw [heq] at hafter
      exact hbefore o' hafter hdel
    · rw [heq] at hafter
      cases hford : findOrder st.orders oid with
      | some o =>
        rw [findOrder_append_of_some st.orders (noid, onew) oid o hford] at hafter
        injection hafter with h'
        exact hbefore o hford (h' ▸ hdel)
      | none =>
        rw [findOrder_append_of_none st.orders (noid, onew) oid hford] at hafter
        by_cases hn : noid = oid
        · rw [if_pos hn] at hafter
          injection hafter with h'
          rw [← h'] at hdel
          rw [hstat] at hdel
          exact absurd hdel (by decide)
        · rw [if_neg hn] at hafter
          cases hafter
  | updateOrderStatus auth oid₂ s =>
    simp only [step] at hafter
    rcases update_order_status_orders st auth oid₂ s with heq | heq
    · exfalso
      rw [heq] at hafter
      exact hbefore o' hafter hdel
    · rw [heq, findOrder_setOrderStatus] at hafter
      by_cases hoid : oid = oid₂
      · rw [if_pos hoid] at hafter
        subst hoid
        cases hford : findOrder st.orders oid with
        | none =>
          rw [hford] at hafter
          simp at hafter
        | some o =>
          rw [hford] at hafter
          simp only [Option.map_some'] at hafter
          injection hafter with h'
          have hs : s = "Delivered" := by
            rw [← h'] at hdel
            exact hdel
          left
          exact ⟨auth, by rw [hs]⟩
      · exfalso
        rw [if_neg hoid] at hafter
        exact hbefore o' hafter hdel
  | verifyDelivery now auth oid₂ otp =>
    simp only [step] at hafter
    rcases verify_order_delivery_orders cfg st now auth oid₂ otp with heq | ⟨heq, hred⟩
    · exfalso
      rw [heq] at hafter
      exact hbefore o' hafter hdel
    · rw [heq, findOrder_setOrderStatus] at hafter
      by_cases hoid : oid = oid₂
      · subst hoid
        right
        exact ⟨now, auth, otp, rfl, hred⟩
      · exfalso
        rw [if_neg hoid] at hafter
        exact hbefore o' hafter hdel

/-- Witness for the amended C2: the step that delivered st0's order via the
correct OTP is recognized as a verify_order_delivery step with a matching
stored hash. -/
theorem C2_amended_delivered_writers_witness :
    (∃ auth, Op.verifyDelivery 0 none oid0 "123456" =
      Op.updateOrderStatus auth oid0 "Delivered") ∨
    (∃ now auth otp, Op.verifyDelivery 0 none oid0 "123456" =
      Op.verifyDelivery now auth oid0 otp ∧
      redisGet st0.redis now (delivery_otp_key oid0) = some (cfg0.hash otp)) :=
  C2_amended_delivered_writers cfg0 st0 (Op.verifyDelivery 0 none oid0 "123456")
    oid0 { ord0 with status := "Delivered" } (by decide) rfl
    (by
      intro o ho
      have h0 : findOrder st0.orders oid0 = some ord0 := by decide
      rw [h0] at ho
      injection ho with h'
      rw [← h']
      decide)

end MediCare
